import Mathlib

set_option maxRecDepth 4000

/-!
Verification development for `tools/plot/plot.py`, a pipe-delimited
process-monitoring log plotter.

The script is embedded shallowly:

* The fixed regular expression in `main` is embedded as the deterministic
  matcher `matchLogPattern`.  For every field except `State` the capture
  class is disjoint from whitespace and from `|`, so the backtracking
  semantics of `re.match` collapses to greedy maximal munch.  The `State`
  class `[\w\s\(\)-]` contains `\s`, so the `\s*` preceding the group can
  backtrack: writing `W` for the maximal run of State-class characters
  after `State:`, the engine's first (hence returned) success captures
  `W` minus its leading whitespace when `W` contains a non-whitespace
  character, and the single last whitespace character of `W` when `W` is
  nonempty pure whitespace (e.g. `State:  |` matches with group `" "`);
  if `W` is empty, or the character after `W` is not `|`, every
  backtracking alternative fails.  `stateGroup` implements exactly this
  case split, so the matcher is an exact model of the pattern on ASCII
  input (the Unicode extensions of `\w`/`\s` are not modelled).
* Python `int()` on the digit-only capture groups is `pyInt`;
  Python `float()` on digits-and-dots strings is `pyFloat`, returning
  `none` exactly when `float()` raises `ValueError` (no digit, or more
  than one dot).  Values are exact rationals; every numeral appearing in
  the claims is exactly representable as a binary float, so equality of
  the rational model agrees with Python float equality on them.
* `pd.to_datetime` is an external library call; it is modelled as an
  abstract parameter `toDT : String → Option String` where `none` means
  the call raises.  `toDTid` is the instance in which every timestamp
  string parses (the timestamp value is carried as the raw text).
* Exceptions are modelled with `Except`: `parse_log_line` returns
  `.error` exactly where the Python function would raise (float or
  datetime failure), `.ok none` where it prints a diagnostic and returns
  `None`, and `.ok (some r)` on success.  `process_logs` and
  `mainOutcome` propagate errors because the script contains no
  `try`/`except`.
-/

/-- Python `\s` on ASCII: space, tab, newline, carriage return,
vertical tab, form feed. -/
def isPySpace (c : Char) : Bool :=
  c = ' ' || c = '\t' || c = '\n' || c = '\r' || c = '\x0b' || c = '\x0c'

/-- Python `\w` on ASCII: letters, digits, underscore. -/
def isWordChar (c : Char) : Bool :=
  c.isAlphanum || c = '_'

/-- The `State` class `[\w\s\(\)-]` of the pattern. -/
def isStateChar (c : Char) : Bool :=
  isWordChar c || isPySpace c || c = '(' || c = ')' || c = '-'

/-- The numeric class `[\d\.]` used for RSS, VSZ, CPU and Uptime. -/
def isNumChar (c : Char) : Bool :=
  c.isDigit || c = '.'

/-- The timestamp class `[\d\-\:T\.Z]` of the `Last Checked` field. -/
def isTsChar (c : Char) : Bool :=
  c.isDigit || c = '-' || c = ':' || c = 'T' || c = '.' || c = 'Z'

/-- Python `str.strip()` on a character list. -/
def pyStripList (cs : List Char) : List Char :=
  ((cs.dropWhile isPySpace).reverse.dropWhile isPySpace).reverse

/-- Python `str.strip()`. -/
def pyStrip (s : String) : String :=
  (pyStripList s.data).asString

/-- Consume a literal label; `none` when the input does not start with it. -/
def lit : List Char → List Char → Option (List Char)
  | [], cs => some cs
  | _ :: _, [] => none
  | l :: ls, c :: cs => if c = l then lit ls cs else none

/-- One greedy nonempty capture group `(cls+)`: the maximal run of
class characters, which must be nonempty. -/
def group1 (p : Char → Bool) (cs : List Char) : Option (List Char × List Char) :=
  match cs.takeWhile p with
  | [] => none
  | c :: g => some (c :: g, cs.dropWhile p)

/-- The inter-field delimiter `\s*\|\s*`. -/
def sepBar (cs : List Char) : Option (List Char) :=
  match cs.dropWhile isPySpace with
  | '|' :: rest => some (rest.dropWhile isPySpace)
  | _ => none

/-- One field of the pattern: literal label, `\s*`, then a capture group. -/
def fieldG (label : List Char) (cls : Char → Bool) (cs : List Char) :
    Option (List Char × List Char) :=
  match lit label cs with
  | none => none
  | some cs1 => group1 cls (cs1.dropWhile isPySpace)

/-- One field followed by the `\s*\|\s*` delimiter. -/
def fieldSep (label : List Char) (cls : Char → Bool) (cs : List Char) :
    Option (List Char × List Char) :=
  match fieldG label cls cs with
  | none => none
  | some gr =>
    match sepBar gr.2 with
    | none => none
    | some cs3 => some (gr.1, cs3)

/-- The State capture `\s*([\w\s\(\)-]+)` with `re.match` backtracking
on the leading `\s*`.  Let `W` be the maximal State-class run: the
group is `W` without its leading whitespace when some non-whitespace
character occurs in `W`; when `W` is nonempty pure whitespace the
engine backtracks the `\s*` by one and captures the last whitespace
character; when `W` is empty there is no match. -/
def stateGroup (cs : List Char) : Option (List Char × List Char) :=
  match (cs.takeWhile isStateChar).dropWhile isPySpace with
  | c :: g => some (c :: g, cs.dropWhile isStateChar)
  | [] =>
    match (cs.takeWhile isStateChar).getLast? with
    | some c => some ([c], cs.dropWhile isStateChar)
    | none => none

/-- The State field: literal label, then the backtracking-aware State
capture (the `\s*` after the label is part of `stateGroup`). -/
def fieldState (cs : List Char) : Option (List Char × List Char) :=
  match lit "State:".data cs with
  | none => none
  | some cs1 => stateGroup cs1

/-- The State field followed by the `\s*\|\s*` delimiter. -/
def fieldStateSep (cs : List Char) : Option (List Char × List Char) :=
  match fieldState cs with
  | none => none
  | some gr =>
    match sepBar gr.2 with
    | none => none
    | some cs3 => some (gr.1, cs3)

/-- The nine capture groups of the fixed pattern, in order. -/
structure Groups where
  pid : List Char
  name : List Char
  state : List Char
  threads : List Char
  rss : List Char
  vsz : List Char
  cpu : List Char
  uptime : List Char
  last_checked : List Char
deriving DecidableEq, Repr

/-- `re.match` of the fixed pattern of `main` against a line: anchored at
the start, trailing input after the last group permitted. -/
def matchLogPattern (line : String) : Option Groups :=
  Option.bind (fieldSep "PID:".data Char.isDigit line.data) fun r1 =>
  Option.bind (fieldSep "Name:".data isWordChar r1.2) fun r2 =>
  Option.bind (fieldStateSep r2.2) fun r3 =>
  Option.bind (fieldSep "Threads:".data Char.isDigit r3.2) fun r4 =>
  Option.bind (fieldSep "RSS (MB):".data isNumChar r4.2) fun r5 =>
  Option.bind (fieldSep "VSZ (MB):".data isNumChar r5.2) fun r6 =>
  Option.bind (fieldSep "CPU (%):".data isNumChar r6.2) fun r7 =>
  Option.bind (fieldSep "Uptime (sec):".data isNumChar r7.2) fun r8 =>
  Option.bind (fieldG "Last Checked:".data isTsChar r8.2) fun r9 =>
  some ⟨r1.1, r2.1, r3.1, r4.1, r5.1, r6.1, r7.1, r8.1, r9.1⟩

/-- Value of a digit string, as `int()` computes it. -/
def digitsToNat (cs : List Char) : Nat :=
  cs.foldl (fun a c => a * 10 + (c.toNat - 48)) 0

/-- Python `int()` on a digit-only string. -/
def pyInt (cs : List Char) : Int :=
  (digitsToNat cs : Int)

/-- Python `float()` restricted to strings over digits and dots (the
only shape the pattern lets through): succeeds iff the string has at
most one dot and at least one digit, yielding the exact decimal value.
`none` models the `ValueError` that `float()` raises otherwise. -/
def pyFloat (cs : List Char) : Option Rat :=
  if cs.all isNumChar then
    let intp := cs.takeWhile (fun c => c ≠ '.')
    match cs.dropWhile (fun c => c ≠ '.') with
    | [] => if intp.isEmpty then none else some (mkRat (digitsToNat intp) 1)
    | _ :: frac =>
      if frac.any (fun c => c = '.') then none
      else if intp.isEmpty && frac.isEmpty then none
      else some (mkRat (digitsToNat (intp ++ frac)) (10 ^ frac.length))
  else none

/-- Python exceptions that `parse_log_line` can raise. -/
inductive PyErr where
  | valueError (arg : String)
  | dtParseError (arg : String)
deriving DecidableEq, Repr

/-- One parsed line, mirroring the dictionary built by `parse_log_line`. -/
structure LogRecord where
  pid : Int
  name : String
  state : String
  threads : Int
  rss_mb : Rat
  vsz_mb : Rat
  cpu_percent : Rat
  uptime_sec : Rat
  last_checked : String
deriving DecidableEq, Repr

/-- `parse_log_line(line, pattern)`: `.ok none` is the no-match branch
(diagnostic printed, `None` returned); `.error` is an uncaught exception
from `float()` or `pd.to_datetime`; field conversions follow the source
order of the dictionary literal. -/
def parse_log_line (toDT : String → Option String) (line : String) :
    Except PyErr (Option LogRecord) :=
  match matchLogPattern line with
  | none => Except.ok none
  | some g =>
    match pyFloat g.rss with
    | none => Except.error (PyErr.valueError g.rss.asString)
    | some rssv =>
      match pyFloat g.vsz with
      | none => Except.error (PyErr.valueError g.vsz.asString)
      | some vszv =>
        match pyFloat g.cpu with
        | none => Except.error (PyErr.valueError g.cpu.asString)
        | some cpuv =>
          match pyFloat g.uptime with
          | none => Except.error (PyErr.valueError g.uptime.asString)
          | some upv =>
            match toDT g.last_checked.asString with
            | none => Except.error (PyErr.dtParseError g.last_checked.asString)
            | some dt =>
              Except.ok (some
                { pid := pyInt g.pid
                  name := g.name.asString
                  state := pyStrip g.state.asString
                  threads := pyInt g.threads
                  rss_mb := rssv
                  vsz_mb := vszv
                  cpu_percent := cpuv
                  uptime_sec := upv
                  last_checked := dt })

/-- `process_logs(log_source, pattern)`: strips each line, skips blank
lines, collects parsed records in input order, and records one
diagnostic (the printed line) per non-blank unmatched line.  An
exception raised by `parse_log_line` aborts the whole loop. -/
def process_logs (toDT : String → Option String) :
    List String → Except PyErr (List LogRecord × List String)
  | [] => Except.ok ([], [])
  | l :: ls =>
    let s := pyStrip l
    if s.isEmpty then process_logs toDT ls
    else
      match parse_log_line toDT s with
      | Except.error e => Except.error e
      | Except.ok none =>
        Except.map (fun p => (p.1, s :: p.2)) (process_logs toDT ls)
      | Except.ok (some r) =>
        Except.map (fun p => (r :: p.1, p.2)) (process_logs toDT ls)

/-- Result of `read_log_source()`: either the process exited, or a
stream was returned together with the `should_close` flag. -/
inductive SourceResult where
  | exited (code : Nat)
  | opened (shouldClose : Bool)
deriving DecidableEq, Repr

/-- `read_log_source()`.  `argsTail` is `sys.argv[1:]`; `openOk p` says
whether `open(p, "r")` succeeds; `stdinTTY` is `sys.stdin.isatty()`. -/
def read_log_source (argsTail : List String) (openOk : String → Bool)
    (stdinTTY : Bool) : SourceResult :=
  match argsTail with
  | p :: _ => if openOk p then SourceResult.opened true else SourceResult.exited 1
  | [] => if stdinTTY then SourceResult.exited 1 else SourceResult.opened false

/-- Outcome of `main()` after the source has been read. -/
inductive MainOutcome where
  | fatal (e : PyErr)
  | exited (code : Nat) (msg : String)
  | rendered (records : List LogRecord)
deriving DecidableEq, Repr

/-- The tail of `main()` on the list of source lines: run
`process_logs`; on an empty collection print the message and
`sys.exit(1)`; otherwise build the frame and render.  `rendered` carries
the collected records (the subsequent `sort_values` and plotting are
pandas/plotly library calls). -/
def mainOutcome (toDT : String → Option String) (lines : List String) :
    MainOutcome :=
  match process_logs toDT lines with
  | Except.error e => MainOutcome.fatal e
  | Except.ok (data, _) =>
    if data.isEmpty then MainOutcome.exited 1 "No valid log entries found."
    else MainOutcome.rendered data

/-- Chart files written for a given outcome of `main()`:
`generate_plots` writes exactly these two files, and it only runs on the
`rendered` path. -/
def filesWritten : MainOutcome → List String
  | MainOutcome.rendered _ => ["cpu_usage.html", "rss_usage.html"]
  | _ => []

/-- The `pd.to_datetime` instance in which every timestamp string
parses; the timestamp value is the raw text. -/
def toDTid : String → Option String := fun s => some s

/-! ### Concrete inputs used by the claims -/

/-- The end-to-end sample line of the specification. -/
def sampleLine : String :=
  "PID: 42 | Name: foo | State: running | Threads: 3 | RSS (MB): 12.5 | VSZ (MB): 100.0 | CPU (%): 5.0 | Uptime (sec): 60.0 | Last Checked: 2024-01-01T00:00:00Z"

/-- The record the sample line parses to. -/
def sampleRec : LogRecord :=
  { pid := 42, name := "foo", state := "running", threads := 3
    rss_mb := mkRat 25 2, vsz_mb := 100, cpu_percent := 5, uptime_sec := 60
    last_checked := "2024-01-01T00:00:00Z" }

/-- The capture groups of the sample line (the `State` group keeps the
trailing space that `strip()` later removes). -/
def sampleGroups : Groups :=
  ⟨"42".data, "foo".data, "running ".data, "3".data, "12.5".data,
    "100.0".data, "5.0".data, "60.0".data, "2024-01-01T00:00:00Z".data⟩

/-- A non-blank line that does not match the pattern. -/
def badLine : String := "malformed entry"

/-- A line whose RSS field contains two dots, otherwise well formed. -/
def multiDotLine : String :=
  "PID: 1 | Name: a | State: r | Threads: 1 | RSS (MB): 1.2.3 | VSZ (MB): 1.0 | CPU (%): 1.0 | Uptime (sec): 1.0 | Last Checked: 2024-01-01T00:00:00Z"

/-- The capture groups of `multiDotLine`. -/
def multiDotGroups : Groups :=
  ⟨"1".data, "a".data, "r ".data, "1".data, "1.2.3".data, "1.0".data,
    "1.0".data, "1.0".data, "2024-01-01T00:00:00Z".data⟩

/-- A well-formed line whose PID field is `0`. -/
def pidZeroLine : String :=
  "PID: 0 | Name: a | State: r | Threads: 1 | RSS (MB): 1.0 | VSZ (MB): 2.0 | CPU (%): 0.5 | Uptime (sec): 1.5 | Last Checked: 2024-01-01T00:00:00Z"

/-- The record `pidZeroLine` parses to. -/
def pidZeroRec : LogRecord :=
  { pid := 0, name := "a", state := "r", threads := 1
    rss_mb := 1, vsz_mb := 2, cpu_percent := mkRat 1 2, uptime_sec := mkRat 3 2
    last_checked := "2024-01-01T00:00:00Z" }

/-- A well-formed line whose Name field is all digits. -/
def digitNameLine : String :=
  "PID: 7 | Name: 123 | State: sleeping | Threads: 2 | RSS (MB): 1.5 | VSZ (MB): 2.0 | CPU (%): 3.0 | Uptime (sec): 4.0 | Last Checked: 2024-02-02T12:00:00Z"

/-- The record `digitNameLine` parses to. -/
def digitNameRec : LogRecord :=
  { pid := 7, name := "123", state := "sleeping", threads := 2
    rss_mb := mkRat 3 2, vsz_mb := 2, cpu_percent := 3, uptime_sec := 4
    last_checked := "2024-02-02T12:00:00Z" }

/-! ### Helper lemmas about the matcher -/

/-- Every character kept by `takeWhile` satisfies the predicate. -/
theorem takeWhile_all_sat (p : Char → Bool) (l : List Char) :
    (l.takeWhile p).all p = true := by
  induction l with
  | nil => rfl
  | cons a t ih =>
    rw [List.takeWhile_cons]
    cases h : p a with
    | true => simp [h, ih]
    | false => simp

/-- A successful capture group is nonempty and lies in its class. -/
theorem group1_spec {p : Char → Bool} {cs : List Char} {r : List Char × List Char}
    (h : group1 p cs = some r) : r.1 ≠ [] ∧ r.1.all p = true := by
  unfold group1 at h
  split at h
  · exact absurd h (by simp)
  · next c g hg =>
    obtain rfl : (c :: g, cs.dropWhile p) = r := Option.some.inj h
    refine ⟨by simp, ?_⟩
    have hall := takeWhile_all_sat p cs
    rw [hg] at hall
    exact hall

/-- A successful field capture is nonempty and lies in its class. -/
theorem fieldG_spec {label : List Char} {p : Char → Bool} {cs : List Char}
    {r : List Char × List Char} (h : fieldG label p cs = some r) :
    r.1 ≠ [] ∧ r.1.all p = true := by
  unfold fieldG at h
  split at h
  · exact absurd h (by simp)
  · exact group1_spec h

/-- A successful delimited field capture is nonempty and lies in its class. -/
theorem fieldSep_spec {label : List Char} {p : Char → Bool} {cs : List Char}
    {r : List Char × List Char} (h : fieldSep label p cs = some r) :
    r.1 ≠ [] ∧ r.1.all p = true := by
  unfold fieldSep at h
  split at h
  · exact absurd h (by simp)
  · next gr hfg =>
    split at h
    · exact absurd h (by simp)
    · have hs := fieldG_spec hfg
      obtain rfl : (gr.1, _) = r := Option.some.inj h
      exact hs

deriving instance DecidableEq for Except

/-! ### Claim theorems -/

/-- Claim C4: exact round-trip.  For every line matched by the fixed
pattern on which the parser returns a record, each field of the record
is exactly the prescribed conversion of the corresponding capture
group of the line (`int` for PID/Threads, the raw text for Name,
`strip` for State, `float` for the four numerics, the date-time parse
for the timestamp) — no other transformation occurs.  In particular
the sample line of the specification parses to exactly one record with
`pid = 42`, `name = "foo"`, `threads = 3`, `rss_mb = 12.5`,
`cpu_percent = 5.0`, both at the Line Parser and through the Log
Processor. -/
theorem parse_roundtrip_exact (toDT : String → Option String)
    (line : String) (g : Groups) (r : LogRecord)
    (hm : matchLogPattern line = some g)
    (hp : parse_log_line toDT line = Except.ok (some r)) :
    (r.pid = pyInt g.pid ∧ r.name = g.name.asString ∧
     r.state = pyStrip g.state.asString ∧ r.threads = pyInt g.threads ∧
     pyFloat g.rss = some r.rss_mb ∧ pyFloat g.vsz = some r.vsz_mb ∧
     pyFloat g.cpu = some r.cpu_percent ∧
     pyFloat g.uptime = some r.uptime_sec ∧
     toDT g.last_checked.asString = some r.last_checked) ∧
    (parse_log_line toDTid sampleLine = Except.ok (some sampleRec) ∧
     process_logs toDTid [sampleLine] = Except.ok ([sampleRec], []) ∧
     sampleRec.pid = 42 ∧ sampleRec.name = "foo" ∧ sampleRec.threads = 3 ∧
     sampleRec.rss_mb = mkRat 25 2 ∧ sampleRec.cpu_percent = 5) := by
  refine ⟨?_, by decide, by decide, rfl, rfl, rfl, rfl, rfl⟩
  unfold parse_log_line at hp
  split at hp
  · exact absurd hp (by simp)
  · next g2 hg2 =>
    rw [hm] at hg2
    obtain rfl := Option.some.inj hg2
    split at hp
    · exact absurd hp (by simp)
    · next v1 h1 =>
      split at hp
      · exact absurd hp (by simp)
      · next v2 h2 =>
        split at hp
        · exact absurd hp (by simp)
        · next v3 h3 =>
          split at hp
          · exact absurd hp (by simp)
          · next v4 h4 =>
            split at hp
            · exact absurd hp (by simp)
            · next v5 h5 =>
              obtain rfl := Option.some.inj (Except.ok.inj hp)
              exact ⟨rfl, rfl, rfl, rfl, by rw [h1], by rw [h2],
                by rw [h3], by rw [h4], by rw [h5]⟩

/-- Claim C4 witness at the sample line. -/
theorem parse_roundtrip_exact_witness :
    matchLogPattern sampleLine = some sampleGroups ∧
    parse_log_line toDTid sampleLine = Except.ok (some sampleRec) ∧
    ((sampleRec.pid = pyInt sampleGroups.pid ∧
      sampleRec.name = sampleGroups.name.asString ∧
      sampleRec.state = pyStrip sampleGroups.state.asString ∧
      sampleRec.threads = pyInt sampleGroups.threads ∧
      pyFloat sampleGroups.rss = some sampleRec.rss_mb ∧
      pyFloat sampleGroups.vsz = some sampleRec.vsz_mb ∧
      pyFloat sampleGroups.cpu = some sampleRec.cpu_percent ∧
      pyFloat sampleGroups.uptime = some sampleRec.uptime_sec ∧
      toDTid sampleGroups.last_checked.asString = some sampleRec.last_checked) ∧
     (parse_log_line toDTid sampleLine = Except.ok (some sampleRec) ∧
      process_logs toDTid [sampleLine] = Except.ok ([sampleRec], []) ∧
      sampleRec.pid = 42 ∧ sampleRec.name = "foo" ∧ sampleRec.threads = 3 ∧
      sampleRec.rss_mb = mkRat 25 2 ∧ sampleRec.cpu_percent = 5)) :=
  ⟨by decide, by decide,
    parse_roundtrip_exact toDTid sampleLine sampleGroups sampleRec
      (by decide) (by decide)⟩

/-- Claim C10: the Name class `[\w_]+` accepts digit-only names; the
line with `Name: 123` parses to a record whose name is the digit string
`"123"`. -/
theorem digit_name_accepted :
    parse_log_line toDTid digitNameLine = Except.ok (some digitNameRec) ∧
    digitNameRec.name = "123" := by
  refine ⟨by decide, rfl⟩

/-- Claim C2 counterexample: the numeric class `[\d\.]+` does not limit
a field to one dot.  The line whose RSS field is `1.2.3` is matched by
the fixed pattern, with the RSS capture group containing two dots; the
subsequent `float()` conversion then raises, so the parser propagates a
`ValueError` rather than rejecting the line. -/
theorem numeric_field_two_dots_matched :
    matchLogPattern multiDotLine = some multiDotGroups ∧
    multiDotGroups.rss = "1.2.3".data ∧
    multiDotGroups.rss.count '.' = 2 ∧
    parse_log_line toDTid multiDotLine = Except.error (PyErr.valueError "1.2.3") := by
  refine ⟨by decide, rfl, by decide, by decide⟩

/-- Claim C2 (amended): every line accepted by the fixed pattern has
RSS, VSZ, CPU and Uptime capture groups that are nonempty strings of
digits and dots; the pattern itself does not bound the number of dots. -/
theorem matched_numeric_fields_digits_dots (line : String) (g : Groups)
    (h : matchLogPattern line = some g) :
    (g.rss ≠ [] ∧ g.rss.all isNumChar = true) ∧
    (g.vsz ≠ [] ∧ g.vsz.all isNumChar = true) ∧
    (g.cpu ≠ [] ∧ g.cpu.all isNumChar = true) ∧
    (g.uptime ≠ [] ∧ g.uptime.all isNumChar = true) := by
  simp only [matchLogPattern, Option.bind_eq_some] at h
  obtain ⟨r1, h1, r2, h2, r3, h3, r4, h4, r5, h5, r6, h6, r7, h7, r8, h8, r9, h9, hg⟩ := h
  obtain rfl : (⟨r1.1, r2.1, r3.1, r4.1, r5.1, r6.1, r7.1, r8.1, r9.1⟩ : Groups) = g :=
    Option.some.inj hg
  exact ⟨fieldSep_spec h5, fieldSep_spec h6, fieldSep_spec h7, fieldSep_spec h8⟩

/-- Claim C2 amended witness at the sample line. -/
theorem matched_numeric_fields_digits_dots_witness :
    matchLogPattern sampleLine = some sampleGroups ∧
    ((sampleGroups.rss ≠ [] ∧ sampleGroups.rss.all isNumChar = true) ∧
     (sampleGroups.vsz ≠ [] ∧ sampleGroups.vsz.all isNumChar = true) ∧
     (sampleGroups.cpu ≠ [] ∧ sampleGroups.cpu.all isNumChar = true) ∧
     (sampleGroups.uptime ≠ [] ∧ sampleGroups.uptime.all isNumChar = true)) :=
  ⟨by decide, matched_numeric_fields_digits_dots sampleLine sampleGroups (by decide)⟩

/-- Claim C3 counterexample: the PID class `\d+` accepts `0`, so the
line `PID: 0 | ...` is accepted and yields a record with `pid = 0`;
the parser does not enforce `pid > 0`. -/
theorem pid_zero_accepted :
    parse_log_line toDTid pidZeroLine = Except.ok (some pidZeroRec) ∧
    pidZeroRec.pid = 0 := by
  refine ⟨by decide, rfl⟩

/-- Claim C3 (amended): every record produced by the Line Parser has a
non-negative pid (the digit class guarantees `pid ≥ 0`, not
`pid > 0`). -/
theorem parsed_pid_nonneg (toDT : String → Option String) (line : String)
    (r : LogRecord) (h : parse_log_line toDT line = Except.ok (some r)) :
    0 ≤ r.pid := by
  unfold parse_log_line at h
  split at h
  · exact absurd h (by simp)
  · split at h
    · exact absurd h (by simp)
    · split at h
      · exact absurd h (by simp)
      · split at h
        · exact absurd h (by simp)
        · split at h
          · exact absurd h (by simp)
          · split at h
            · exact absurd h (by simp)
            · obtain rfl := Option.some.inj (Except.ok.inj h)
              exact Int.natCast_nonneg _

/-- Claim C3 amended witness at the sample line. -/
theorem parsed_pid_nonneg_witness :
    parse_log_line toDTid sampleLine = Except.ok (some sampleRec) ∧
    0 ≤ sampleRec.pid :=
  ⟨by decide, parsed_pid_nonneg toDTid sampleLine sampleRec (by decide)⟩

/-- Claim C5: a non-blank line that fails the pattern yields no record,
exactly one diagnostic (the stripped line that was printed), and
processing continues with the remaining lines unchanged; in particular,
the mix of one valid and one invalid line yields exactly one record and
exactly one diagnostic. -/
theorem invalid_line_one_diagnostic (toDT : String → Option String)
    (line : String) (rest : List String)
    (h1 : (pyStrip line).isEmpty = false)
    (h2 : parse_log_line toDT (pyStrip line) = Except.ok none) :
    process_logs toDT (line :: rest) =
      Except.map (fun p => (p.1, pyStrip line :: p.2)) (process_logs toDT rest) ∧
    Except.map (fun p => (p.1.length, p.2.length))
      (process_logs toDTid [sampleLine, badLine]) = Except.ok (1, 1) := by
  constructor
  · simp [process_logs, h1, h2]
  · decide

/-- Claim C5 witness at a concrete invalid line. -/
theorem invalid_line_one_diagnostic_witness :
    (pyStrip badLine).isEmpty = false ∧
    (process_logs toDTid (badLine :: []) =
      Except.map (fun p => (p.1, pyStrip badLine :: p.2)) (process_logs toDTid []) ∧
    Except.map (fun p => (p.1.length, p.2.length))
      (process_logs toDTid [sampleLine, badLine]) = Except.ok (1, 1)) :=
  ⟨by decide, invalid_line_one_diagnostic toDTid badLine [] (by decide) (by decide)⟩

/-- Claim C6: a line that is blank after stripping is skipped: it is
never given to the Line Parser and contributes neither a record nor a
diagnostic. -/
theorem blank_line_skipped (toDT : String → Option String) (line : String)
    (rest : List String) (h : pyStrip line = "") :
    process_logs toDT (line :: rest) = process_logs toDT rest := by
  have he : ("" : String).isEmpty = true := rfl
  simp [process_logs, h, he]

/-- Claim C6 witness at a whitespace-only line. -/
theorem blank_line_skipped_witness :
    pyStrip "  \t " = "" ∧
    process_logs toDTid ("  \t " :: [badLine]) = process_logs toDTid [badLine] :=
  ⟨by decide, blank_line_skipped toDTid "  \t " [badLine] (by decide)⟩

/-- Claim C7: when the full scan yields zero valid records, `main`
prints the message, exits with status 1, and writes neither
`cpu_usage.html` nor `rss_usage.html`. -/
theorem empty_result_exit1 (toDT : String → Option String)
    (lines : List String) (diags : List String)
    (h : process_logs toDT lines = Except.ok ([], diags)) :
    mainOutcome toDT lines = MainOutcome.exited 1 "No valid log entries found." ∧
    filesWritten (mainOutcome toDT lines) = [] := by
  have hm : mainOutcome toDT lines = MainOutcome.exited 1 "No valid log entries found." := by
    simp [mainOutcome, h]
  exact ⟨hm, by rw [hm]; rfl⟩


/-- Claim C7 witness at an input with one unmatched line. -/
theorem empty_result_exit1_witness :
    process_logs toDTid [badLine] = Except.ok ([], [badLine]) ∧
    (mainOutcome toDTid [badLine] = MainOutcome.exited 1 "No valid log entries found." ∧
     filesWritten (mainOutcome toDTid [badLine]) = []) :=
  ⟨by decide, empty_result_exit1 toDTid [badLine] [badLine] (by decide)⟩

/-- Claim C8: `read_log_source` exits with code 1 exactly when a
supplied path fails to open or when no argument is supplied and stdin
is a terminal; otherwise it returns a stream whose `should_close` flag
is true exactly for an opened file and false for stdin (so `main`
never closes stdin). -/
theorem read_log_source_cases (openOk : String → Bool) (tty : Bool)
    (args : List String) :
    (read_log_source args openOk tty = SourceResult.exited 1 ↔
      (∃ p rest, args = p :: rest ∧ openOk p = false) ∨ (args = [] ∧ tty = true)) ∧
    (read_log_source args openOk tty = SourceResult.opened true ↔
      ∃ p rest, args = p :: rest ∧ openOk p = true) ∧
    (read_log_source args openOk tty = SourceResult.opened false ↔
      args = [] ∧ tty = false) := by
  cases args with
  | nil => cases tty <;> simp [read_log_source]
  | cons p rest => cases h : openOk p <;> simp [read_log_source, h]

/-- Claim C9: a line that matches the pattern (so its `Last Checked`
group passed the timestamp class) but whose timestamp fails date-time
parsing makes the whole run fail: `parse_log_line` raises, the
exception passes uncaught through `process_logs` and through `main`,
and the line is not downgraded to a per-line skip. -/
theorem timestamp_parse_error_fatal (toDT : String → Option String)
    (line : String) (rest : List String) (g : Groups)
    (hne : (pyStrip line).isEmpty = false)
    (hm : matchLogPattern (pyStrip line) = some g)
    (h1 : (pyFloat g.rss).isSome = true)
    (h2 : (pyFloat g.vsz).isSome = true)
    (h3 : (pyFloat g.cpu).isSome = true)
    (h4 : (pyFloat g.uptime).isSome = true)
    (hdt : toDT g.last_checked.asString = none) :
    parse_log_line toDT (pyStrip line) =
      Except.error (PyErr.dtParseError g.last_checked.asString) ∧
    process_logs toDT (line :: rest) =
      Except.error (PyErr.dtParseError g.last_checked.asString) ∧
    mainOutcome toDT (line :: rest) =
      MainOutcome.fatal (PyErr.dtParseError g.last_checked.asString) := by
  obtain ⟨v1, hv1⟩ := Option.isSome_iff_exists.mp h1
  obtain ⟨v2, hv2⟩ := Option.isSome_iff_exists.mp h2
  obtain ⟨v3, hv3⟩ := Option.isSome_iff_exists.mp h3
  obtain ⟨v4, hv4⟩ := Option.isSome_iff_exists.mp h4
  have hp : parse_log_line toDT (pyStrip line) =
      Except.error (PyErr.dtParseError g.last_checked.asString) := by
    unfold parse_log_line
    rw [hm]
    simp only [hv1, hv2, hv3, hv4, hdt]
  have hl : process_logs toDT (line :: rest) =
      Except.error (PyErr.dtParseError g.last_checked.asString) := by
    simp [process_logs, hne, hp]
  exact ⟨hp, hl, by simp [mainOutcome, hl]⟩

/-- Claim C9 witness: the sample line with a datetime parser that
rejects every string. -/
theorem timestamp_parse_error_fatal_witness :
    (pyStrip sampleLine).isEmpty = false ∧
    matchLogPattern (pyStrip sampleLine) = some sampleGroups ∧
    ((fun _ => (none : Option String)) sampleGroups.last_checked.asString = none) ∧
    (parse_log_line (fun _ => none) (pyStrip sampleLine) =
      Except.error (PyErr.dtParseError sampleGroups.last_checked.asString) ∧
    process_logs (fun _ => none) (sampleLine :: []) =
      Except.error (PyErr.dtParseError sampleGroups.last_checked.asString) ∧
    mainOutcome (fun _ => none) (sampleLine :: []) =
      MainOutcome.fatal (PyErr.dtParseError sampleGroups.last_checked.asString)) :=
  ⟨by decide, by decide, rfl,
    timestamp_parse_error_fatal (fun _ => none) sampleLine [] sampleGroups
      (by decide) (by decide) (by decide) (by decide) (by decide) (by decide) rfl⟩
